import Mathlib

/-!
A shallow embedding of `src/food-nutrition-backend/app.py` (Food-Nutrition-Analyzer).

The program is a Flask service: an uploaded image is classified (top-3
predictions), the top label is looked up in an in-memory cache
(`nutrition_db`, a dict loaded from `data/nutrition_db.json` at startup);
on a miss the Edamam API is queried (`get_nutrition_data_from_api`), a
successful result is written through to the dict and the whole dict is
dumped back to the JSON file under `db_lock`.

Modelling choices:
* Python floats are modelled as rationals; `round(x, 1)` is round-half-to-even
  at one decimal (`pyRound1`), `int(x)` truncates toward zero (`pyInt`).
* The HTTP/network layer is a parameter `net : String → ApiOutcome` giving, for
  the ingredient string the code posts, the outcome of
  `requests.post / raise_for_status / json() / ['ingredients'][0]['parsed'][0]`.
* The `nutrients` dict of the parsed payload is an association list
  `List (String × Option ℚ)`: key → the optional `quantity` field.
* The process state is the pair of the in-memory dict and the last snapshot
  written to `data/nutrition_db.json`.
* Each function returns, besides its Python return value, the number of
  network requests it issued, so that "no provider call" is a provable fact.
-/

namespace FoodNutrition

/-- Python `int(q)`: truncation toward zero. -/
def pyInt (q : ℚ) : ℤ :=
  if 0 ≤ q then q.floor else q.ceil

/-- Round a rational to the nearest integer, ties to even (Python `round(_, 0)` semantics). -/
def roundHalfEven (q : ℚ) : ℤ :=
  if q - (q.floor : ℚ) < 1/2 then q.floor
  else if 1/2 < q - (q.floor : ℚ) then q.floor + 1
  else if q.floor % 2 = 0 then q.floor else q.floor + 1

/-- Python `round(q, 1)`: round to one decimal place, ties to even. -/
def pyRound1 (q : ℚ) : ℚ :=
  (roundHalfEven (q * 10) : ℚ) / 10

/-- The parsed `nutrients` mapping of the API payload: nutrient key to the
optional `quantity` field of its value dict. -/
abbrev Nutrients := List (String × Option ℚ)

/-- Embedding of `get_nutrient` from `app.py` lines 82-83:
`round(nutrients.get(key, {}).get('quantity', 0), 1)`. -/
def get_nutrient (nutrients : Nutrients) (key : String) : ℚ :=
  pyRound1 (((nutrients.lookup key).getD none).getD 0)

/-- The `nutritionPer100g` dict built at lines 92-105 of `app.py`:
`calories` is an integer, the other 23 fields are one-decimal quantities. -/
structure NutritionPer100g where
  calories : ℤ
  protein : ℚ
  fat : ℚ
  carbs : ℚ
  fiber : ℚ
  sugar : ℚ
  sodium : ℚ
  cholesterol : ℚ
  calcium : ℚ
  iron : ℚ
  magnesium : ℚ
  potassium : ℚ
  zinc : ℚ
  phosphorus : ℚ
  vitaminA : ℚ
  vitaminC : ℚ
  thiaminB1 : ℚ
  riboflavinB2 : ℚ
  niacinB3 : ℚ
  vitaminB6 : ℚ
  vitaminB12 : ℚ
  vitaminD : ℚ
  vitaminE : ℚ
  vitaminK : ℚ

/-- The `formatted_data` dict (lines 91-107): nutrition facts plus the
(always empty) allergen list. -/
structure FormattedData where
  nutritionPer100g : NutritionPer100g
  allergens : List String

/-- Outcome of the network interaction inside `get_nutrition_data_from_api`:
either `requests.post`/`raise_for_status` raises (`requestError`), or the
JSON body lacks `['ingredients'][0]['parsed'][0]` (`unparseable`, the
`IndexError/KeyError` branch at lines 74-76), or that path exists and yields
a `nutrients` mapping (possibly empty). -/
inductive ApiOutcome where
  | requestError
  | unparseable
  | parsed (nutrients : Nutrients)

/-- Line 59 of `app.py`: `APP_ID == "EDAMAM_APP_ID" or APP_KEY == "EDAMAM_APP_KEY"`.
The credentials are `os.getenv` results, hence `Option String` (`none` = unset);
in Python `None == "EDAMAM_APP_ID"` is `False`, which `none = some _` mirrors. -/
def credentials_are_placeholder (APP_ID APP_KEY : Option String) : Bool :=
  APP_ID = some "EDAMAM_APP_ID" || APP_KEY = some "EDAMAM_APP_KEY"

/-- Embedding of `get_nutrition_data_from_api` (lines 57-111). Returns the Python return
value (`None` or the formatted dict) paired with the number of HTTP requests
issued (0 when the placeholder guard fires, 1 otherwise). The posted payload
is `"100g " ++ food_name.lower()` as at line 64. -/
def get_nutrition_data_from_api (APP_ID APP_KEY : Option String)
    (net : String → ApiOutcome) (food_name : String) :
    Option FormattedData × Nat :=
  if credentials_are_placeholder APP_ID APP_KEY then (none, 0)
  else
    match net ("100g " ++ food_name.toLower) with
    | .requestError => (none, 1)
    | .unparseable => (none, 1)
    | .parsed nutrients =>
      if nutrients.isEmpty then (none, 1)
      else
        let calories := pyInt (get_nutrient nutrients "ENERC_KCAL")
        if calories = 0 then (none, 1)
        else
          (some
            { nutritionPer100g :=
              { calories := calories
                protein := get_nutrient nutrients "PROCNT"
                fat := get_nutrient nutrients "FAT"
                carbs := get_nutrient nutrients "CHOCDF"
                fiber := get_nutrient nutrients "FIBTG"
                sugar := get_nutrient nutrients "SUGAR"
                sodium := get_nutrient nutrients "NA"
                cholesterol := get_nutrient nutrients "CHOLE"
                calcium := get_nutrient nutrients "CA"
                iron := get_nutrient nutrients "FE"
                magnesium := get_nutrient nutrients "MG"
                potassium := get_nutrient nutrients "K"
                zinc := get_nutrient nutrients "ZN"
                phosphorus := get_nutrient nutrients "P"
                vitaminA := get_nutrient nutrients "VITA_RAE"
                vitaminC := get_nutrient nutrients "VITC"
                thiaminB1 := get_nutrient nutrients "THIA"
                riboflavinB2 := get_nutrient nutrients "RIBF"
                niacinB3 := get_nutrient nutrients "NIA"
                vitaminB6 := get_nutrient nutrients "VITB6A"
                vitaminB12 := get_nutrient nutrients "VITB12"
                vitaminD := get_nutrient nutrients "VITD"
                vitaminE := get_nutrient nutrients "TOCPHA"
                vitaminK := get_nutrient nutrients "VITK1" }
              allergens := [] }, 1)

/-- The in-memory `nutrition_db` dict: label → nutrition record. -/
abbrev Cache := List (String × FormattedData)

/-- Python dict assignment `d[k] = v`: overwrite in place if the key exists,
otherwise append. -/
def dictInsert : Cache → String → FormattedData → Cache
  | [], k, v => [(k, v)]
  | (k', v') :: rest, k, v =>
    if k' = k then (k, v) :: rest else (k', v') :: dictInsert rest k v

/-- The shared process state: the in-memory dict and the snapshot last written
to `data/nutrition_db.json` by `json.dump` (line 164). -/
structure SrvState where
  nutrition_db : Cache
  db_file : Cache

/-- The critical section at lines 160-166, run under `db_lock`: mutate the
dict, then dump the entire dict to the file. `write_ok = false` models the
`IOError` branch (file unwritable): the in-memory entry stays, the snapshot
does not change. -/
def write_cache_and_persist (st : SrvState) (label : String)
    (data : FormattedData) (write_ok : Bool) : SrvState :=
  let db' := dictInsert st.nutrition_db label data
  { nutrition_db := db', db_file := if write_ok then db' else st.db_file }

/-- One prediction as produced by `predict_image`: label and confidence. -/
structure Prediction where
  label : String
  confidence : ℚ

/-- The JSON body assembled at lines 170-174. The cached/fetched dict is
always truthy (it has two keys), so `nutrition_data.get(...) if nutrition_data
else ...` maps `some rec` to the record's fields and `none` to `null` / `[]`. -/
structure Response where
  predictions : List Prediction
  nutritionPer100g : Option NutritionPer100g
  allergens : List String

/-- Result of one successful `analyze` call: the JSON response, the new
process state, the labels passed to `get_nutrition_data_from_api`, and the
number of HTTP requests issued. -/
structure AnalyzeResult where
  response : Response
  state : SrvState
  provider_calls : List String
  network_requests : Nat

/-- Embedding of the `analyze` handler (lines 135-180), given the predictions returned by
`predict_image`. `none` models the `except` branch (500): with an empty
prediction list `predictions[0]` raises. Otherwise: cache lookup on the top
label; on a hit the stored record is returned with no provider call; on a
miss the provider is called once and a non-`None` result is written through
via `write_cache_and_persist`. -/
def analyze (APP_ID APP_KEY : Option String) (net : String → ApiOutcome)
    (write_ok : Bool) (predictions : List Prediction) (st : SrvState) :
    Option AnalyzeResult :=
  match predictions with
  | [] => none
  | p0 :: _ =>
    let top := p0.label
    match st.nutrition_db.lookup top with
    | some record =>
      some
        { response :=
            { predictions := predictions
              nutritionPer100g := some record.nutritionPer100g
              allergens := record.allergens }
          state := st
          provider_calls := []
          network_requests := 0 }
    | none =>
      match get_nutrition_data_from_api APP_ID APP_KEY net top with
      | (some record, n) =>
        some
          { response :=
              { predictions := predictions
                nutritionPer100g := some record.nutritionPer100g
                allergens := record.allergens }
            state := write_cache_and_persist st top record write_ok
            provider_calls := [top]
            network_requests := n }
      | (none, n) =>
        some
          { response :=
              { predictions := predictions
                nutritionPer100g := none
                allergens := [] }
            state := st
            provider_calls := [top]
            network_requests := n }

/-- Result of reading `data/nutrition_db.json` at startup (lines 30-36):
the file is missing (`FileNotFoundError`), holds invalid JSON
(`json.JSONDecodeError`), or parses to a mapping. -/
inductive StoreRead where
  | fileNotFound
  | jsonDecodeError
  | loaded (c : Cache)

/-- The startup `try/except` at lines 30-36: both caught exceptions yield the
empty dict; the function is total, so neither case surfaces as an error. -/
def load_nutrition_db : StoreRead → Cache
  | .fileNotFound => []
  | .jsonDecodeError => []
  | .loaded c => c

/-- One request as seen by the server loop: the network behaviour during that
request, whether the snapshot write succeeds, and the classifier's output. -/
structure Request where
  net : String → ApiOutcome
  write_ok : Bool
  predictions : List Prediction

/-- The state transition of one request: `analyze` run for its side effect on
the shared state (a 400/500 response leaves the state unchanged). -/
def step (APP_ID APP_KEY : Option String) (st : SrvState) (r : Request) : SrvState :=
  match analyze APP_ID APP_KEY r.net r.write_ok r.predictions st with
  | none => st
  | some res => res.state

/-- The server's life after startup: the requests processed in order. -/
def runRequests (APP_ID APP_KEY : Option String) (st : SrvState)
    (reqs : List Request) : SrvState :=
  reqs.foldl (step APP_ID APP_KEY) st

section Lemmas

lemma ratFloor_eq_intFloor (q : ℚ) : q.floor = Int.floor q := by
  rw [Rat.floor_def]
  exact Rat.floor_def' q

lemma roundHalfEven_nonneg (q : ℚ) (h : 0 ≤ q) : 0 ≤ roundHalfEven q := by
  have hf : 0 ≤ q.floor := by
    rw [ratFloor_eq_intFloor]
    exact Int.floor_nonneg.2 h
  unfold roundHalfEven
  split_ifs <;> omega

lemma pyRound1_nonneg (q : ℚ) (h : 0 ≤ q) : 0 ≤ pyRound1 q := by
  unfold pyRound1
  have h10 : 0 ≤ q * 10 := by positivity
  have := roundHalfEven_nonneg (q * 10) h10
  positivity

lemma pyInt_eq_zero (r : ℚ) (h0 : 0 ≤ r) (h1 : r < 1) : pyInt r = 0 := by
  unfold pyInt
  rw [if_pos h0, ratFloor_eq_intFloor]
  exact Int.floor_eq_zero_iff.2 (Set.mem_Ico.2 ⟨h0, h1⟩)

lemma lookup_dictInsert_self (c : Cache) (k : String) (v : FormattedData) :
    (dictInsert c k v).lookup k = some v := by
  induction c with
  | nil => simp [dictInsert, List.lookup]
  | cons hd tl ih =>
    obtain ⟨k', v'⟩ := hd
    by_cases h : k' = k
    · subst h
      simp [dictInsert, List.lookup]
    · simp only [dictInsert, if_neg h, List.lookup]
      have : (k == k') = false := beq_eq_false_iff_ne.2 fun h' => h h'.symm
      rw [this]
      exact ih

lemma lookup_dictInsert_ne (c : Cache) (k k' : String) (v : FormattedData)
    (h : k' ≠ k) : (dictInsert c k v).lookup k' = c.lookup k' := by
  have hbeq : (k' == k) = false := beq_eq_false_iff_ne.2 h
  induction c with
  | nil => simp [dictInsert, List.lookup, hbeq]
  | cons hd tl ih =>
    obtain ⟨k₀, v₀⟩ := hd
    by_cases h0 : k₀ = k
    · subst h0
      simp [dictInsert, List.lookup, hbeq]
    · simp only [dictInsert, if_neg h0, List.lookup]
      cases hb : (k' == k₀) <;> simp [hb, ih]

lemma mem_dictInsert (c : Cache) (k : String) (v : FormattedData)
    (e : String × FormattedData) (he : e ∈ dictInsert c k v) :
    e = (k, v) ∨ e ∈ c := by
  induction c with
  | nil =>
    simp only [dictInsert, List.mem_singleton] at he
    exact Or.inl he
  | cons hd tl ih =>
    obtain ⟨k₀, v₀⟩ := hd
    by_cases h0 : k₀ = k
    · subst h0
      simp only [dictInsert, if_pos rfl] at he
      rcases List.mem_cons.1 he with h | h
      · exact Or.inl h
      · exact Or.inr (List.mem_cons_of_mem _ h)
    · simp only [dictInsert, if_neg h0] at he
      rcases List.mem_cons.1 he with h | h
      · exact Or.inr (h ▸ List.mem_cons_self _ _)
      · rcases ih h with h' | h'
        · exact Or.inl h'
        · exact Or.inr (List.mem_cons_of_mem _ h')

lemma network_requests_le_one (APP_ID APP_KEY : Option String)
    (net : String → ApiOutcome) (food_name : String) :
    (get_nutrition_data_from_api APP_ID APP_KEY net food_name).2 ≤ 1 := by
  unfold get_nutrition_data_from_api
  split_ifs
  · exact Nat.zero_le 1
  · rcases net ("100g " ++ food_name.toLower) with _ | _ | nutrients
    · simp
    · simp
    · simp only
      split_ifs <;> simp

end Lemmas

/-- Concrete record used by the witnesses: the record the embedded fetch
produces for `sampleNutrients`. -/
def sampleNutrients : Nutrients :=
  [("ENERC_KCAL", some 266), ("PROCNT", some 11), ("FAT", some 10)]

/-- The fetch result for `sampleNutrients`: 266 kcal, 11 g protein, 10 g fat,
every other nutrient defaulted to 0. -/
def sampleRecord : FormattedData :=
  { nutritionPer100g :=
    { calories := 266
      protein := 11
      fat := 10
      carbs := 0
      fiber := 0
      sugar := 0
      sodium := 0
      cholesterol := 0
      calcium := 0
      iron := 0
      magnesium := 0
      potassium := 0
      zinc := 0
      phosphorus := 0
      vitaminA := 0
      vitaminC := 0
      thiaminB1 := 0
      riboflavinB2 := 0
      niacinB3 := 0
      vitaminB6 := 0
      vitaminB12 := 0
      vitaminD := 0
      vitaminE := 0
      vitaminK := 0 }
    allergens := [] }

/-- Top prediction used by the witnesses. -/
def samplePrediction : Prediction :=
  { label := "Pizza", confidence := 9/10 }

/-- Claim C1: for every label that is a key of the in-memory cache at the start of a
request, when that label is the top prediction the request makes zero provider
calls (and zero network requests), the state is unchanged, and the response's
nutrition fields are exactly the stored record's fields. -/
theorem C1_cache_hit_no_provider_call (APP_ID APP_KEY : Option String)
    (net : String → ApiOutcome) (write_ok : Bool) (p0 : Prediction)
    (rest : List Prediction) (st : SrvState) (record : FormattedData)
    (hhit : st.nutrition_db.lookup p0.label = some record) :
    analyze APP_ID APP_KEY net write_ok (p0 :: rest) st =
      some
        { response :=
            { predictions := p0 :: rest
              nutritionPer100g := some record.nutritionPer100g
              allergens := record.allergens }
          state := st
          provider_calls := []
          network_requests := 0 } := by
  simp [analyze, hhit]

/-- Witness for C1 at a concrete cached label. -/
theorem C1_cache_hit_no_provider_call_witness :
    analyze (some "id") (some "key") (fun _ => ApiOutcome.requestError) true
        [samplePrediction]
        { nutrition_db := [("Pizza", sampleRecord)]
          db_file := [("Pizza", sampleRecord)] } =
      some
        { response :=
            { predictions := [samplePrediction]
              nutritionPer100g := some sampleRecord.nutritionPer100g
              allergens := sampleRecord.allergens }
          state :=
            { nutrition_db := [("Pizza", sampleRecord)]
              db_file := [("Pizza", sampleRecord)] }
          provider_calls := []
          network_requests := 0 } :=
  C1_cache_hit_no_provider_call (some "id") (some "key")
    (fun _ => ApiOutcome.requestError) true samplePrediction [] _ sampleRecord rfl

/-- Claim C2: for every request whose top prediction label is absent from the cache,
`get_nutrition_data_from_api` is invoked exactly once, with the top-ranked
label as its only argument (so the lower-ranked labels are never passed), and
at most one network request is issued (no retry within the request). -/
theorem C2_cache_miss_single_provider_call (APP_ID APP_KEY : Option String)
    (net : String → ApiOutcome) (write_ok : Bool) (p0 : Prediction)
    (rest : List Prediction) (st : SrvState)
    (hmiss : st.nutrition_db.lookup p0.label = none) :
    ∃ res, analyze APP_ID APP_KEY net write_ok (p0 :: rest) st = some res ∧
      res.provider_calls = [p0.label] ∧ res.network_requests ≤ 1 := by
  have hn := network_requests_le_one APP_ID APP_KEY net p0.label
  rcases hfetch : get_nutrition_data_from_api APP_ID APP_KEY net p0.label with ⟨d, n⟩
  rw [hfetch] at hn
  cases d with
  | none =>
    exact ⟨{ response :=
               { predictions := p0 :: rest
                 nutritionPer100g := none
                 allergens := [] }
             state := st
             provider_calls := [p0.label]
             network_requests := n },
           by simp [analyze, hmiss, hfetch], rfl, hn⟩
  | some record =>
    exact ⟨{ response :=
               { predictions := p0 :: rest
                 nutritionPer100g := some record.nutritionPer100g
                 allergens := record.allergens }
             state := write_cache_and_persist st p0.label record write_ok
             provider_calls := [p0.label]
             network_requests := n },
           by simp [analyze, hmiss, hfetch], rfl, hn⟩

/-- Witness for C2 at a concrete missing label. -/
theorem C2_cache_miss_single_provider_call_witness :
    ∃ res,
      analyze (some "id") (some "key") (fun _ => ApiOutcome.requestError) true
          [samplePrediction] { nutrition_db := [], db_file := [] } = some res ∧
        res.provider_calls = [samplePrediction.label] ∧
        res.network_requests ≤ 1 :=
  C2_cache_miss_single_provider_call (some "id") (some "key")
    (fun _ => ApiOutcome.requestError) true samplePrediction [] _ rfl

/-- Nutrient payload whose calorie quantity rounds to 0.9 and truncates to 0. -/
def lowCalNutrients : Nutrients := [("ENERC_KCAL", some (94/100))]

/-- Claim C3: after a successful provider fetch for the top label on a cache
miss (with a writable store), the record is inserted into the in-memory dict
in the state the request hands on, a lookup of that label now returns exactly
that record, the durable snapshot equals the entire in-memory mapping (the
whole dict is rewritten, not one entry appended), and a subsequent request for
the same label hits the cache: no provider call, no network request, and the
same record in the response. -/
theorem C3_success_write_through (APP_ID APP_KEY : Option String)
    (net : String → ApiOutcome) (p0 : Prediction) (rest : List Prediction)
    (st : SrvState) (record : FormattedData) (n : Nat)
    (hmiss : st.nutrition_db.lookup p0.label = none)
    (hfetch : get_nutrition_data_from_api APP_ID APP_KEY net p0.label =
      (some record, n)) :
    ∃ res, analyze APP_ID APP_KEY net true (p0 :: rest) st = some res ∧
      res.state.nutrition_db = dictInsert st.nutrition_db p0.label record ∧
      res.state.nutrition_db.lookup p0.label = some record ∧
      res.state.db_file = res.state.nutrition_db ∧
      (∀ (net2 : String → ApiOutcome) (write_ok2 : Bool), ∃ res2,
        analyze APP_ID APP_KEY net2 write_ok2 (p0 :: rest) res.state =
          some res2 ∧
        res2.provider_calls = [] ∧ res2.network_requests = 0 ∧
        res2.response.nutritionPer100g = some record.nutritionPer100g ∧
        res2.response.allergens = record.allergens ∧
        res2.state = res.state) := by
  have hdb : (write_cache_and_persist st p0.label record true).nutrition_db =
      dictInsert st.nutrition_db p0.label record := rfl
  have hfile : (write_cache_and_persist st p0.label record true).db_file =
      (write_cache_and_persist st p0.label record true).nutrition_db := rfl
  have hl : (write_cache_and_persist st p0.label record true).nutrition_db.lookup
      p0.label = some record := by
    rw [hdb]
    exact lookup_dictInsert_self _ _ _
  refine ⟨{ response :=
              { predictions := p0 :: rest
                nutritionPer100g := some record.nutritionPer100g
                allergens := record.allergens }
            state := write_cache_and_persist st p0.label record true
            provider_calls := [p0.label]
            network_requests := n },
          by simp [analyze, hmiss, hfetch], hdb, hl, hfile, ?_⟩
  intro net2 write_ok2
  exact ⟨{ response :=
             { predictions := p0 :: rest
               nutritionPer100g := some record.nutritionPer100g
               allergens := record.allergens }
           state := write_cache_and_persist st p0.label record true
           provider_calls := []
           network_requests := 0 },
         by simp [analyze, hl], rfl, rfl, rfl, rfl, rfl⟩

/-- Witness for C3: empty cache, provider returns the sample payload. -/
theorem C3_success_write_through_witness :
    ∃ res,
      analyze (some "id") (some "key")
          (fun _ => ApiOutcome.parsed sampleNutrients) true [samplePrediction]
          { nutrition_db := [], db_file := [] } = some res ∧
        res.state.nutrition_db =
          dictInsert [] samplePrediction.label sampleRecord ∧
        res.state.nutrition_db.lookup samplePrediction.label =
          some sampleRecord ∧
        res.state.db_file = res.state.nutrition_db ∧
        (∀ (net2 : String → ApiOutcome) (write_ok2 : Bool), ∃ res2,
          analyze (some "id") (some "key") net2 write_ok2 [samplePrediction]
              res.state = some res2 ∧
          res2.provider_calls = [] ∧ res2.network_requests = 0 ∧
          res2.response.nutritionPer100g = some sampleRecord.nutritionPer100g ∧
          res2.response.allergens = sampleRecord.allergens ∧
          res2.state = res.state) :=
  C3_success_write_through (some "id") (some "key")
    (fun _ => ApiOutcome.parsed sampleNutrients) samplePrediction [] _
    sampleRecord 1 rfl (by with_unfolding_all rfl)

/-- Claim C4: for every request whose provider lookup fails or returns
not-found, the response still carries the predictions but with `null`
nutrition fields and empty allergens, the state (in-memory dict and durable
snapshot) is unchanged, and any subsequent request for the same label misses
again and calls the provider afresh. -/
theorem C4_failure_not_cached (APP_ID APP_KEY : Option String)
    (net : String → ApiOutcome) (write_ok : Bool) (p0 : Prediction)
    (rest : List Prediction) (st : SrvState) (n : Nat)
    (hmiss : st.nutrition_db.lookup p0.label = none)
    (hfail : get_nutrition_data_from_api APP_ID APP_KEY net p0.label =
      (none, n)) :
    ∃ res, analyze APP_ID APP_KEY net write_ok (p0 :: rest) st = some res ∧
      res.response.predictions = p0 :: rest ∧
      res.response.nutritionPer100g = none ∧
      res.response.allergens = [] ∧
      res.state = st ∧
      (∀ (net2 : String → ApiOutcome) (write_ok2 : Bool), ∃ res2,
        analyze APP_ID APP_KEY net2 write_ok2 (p0 :: rest) res.state =
          some res2 ∧
        res2.provider_calls = [p0.label]) := by
  refine ⟨{ response :=
              { predictions := p0 :: rest
                nutritionPer100g := none
                allergens := [] }
            state := st
            provider_calls := [p0.label]
            network_requests := n },
          by simp [analyze, hmiss, hfail], rfl, rfl, rfl, rfl, ?_⟩
  intro net2 write_ok2
  rcases hf2 : get_nutrition_data_from_api APP_ID APP_KEY net2 p0.label
    with ⟨d2, n2⟩
  cases d2 with
  | none =>
    exact ⟨{ response :=
               { predictions := p0 :: rest
                 nutritionPer100g := none
                 allergens := [] }
             state := st
             provider_calls := [p0.label]
             network_requests := n2 },
           by simp [analyze, hmiss, hf2], rfl⟩
  | some record2 =>
    exact ⟨{ response :=
               { predictions := p0 :: rest
                 nutritionPer100g := some record2.nutritionPer100g
                 allergens := record2.allergens }
             state := write_cache_and_persist st p0.label record2 write_ok2
             provider_calls := [p0.label]
             network_requests := n2 },
           by simp [analyze, hmiss, hf2], rfl⟩

/-- Witness for C4: empty cache, network request fails. -/
theorem C4_failure_not_cached_witness :
    ∃ res,
      analyze (some "id") (some "key") (fun _ => ApiOutcome.requestError) true
          [samplePrediction] { nutrition_db := [], db_file := [] } =
        some res ∧
      res.response.predictions = [samplePrediction] ∧
      res.response.nutritionPer100g = none ∧
      res.response.allergens = [] ∧
      res.state = { nutrition_db := [], db_file := [] } ∧
      (∀ (net2 : String → ApiOutcome) (write_ok2 : Bool), ∃ res2,
        analyze (some "id") (some "key") net2 write_ok2 [samplePrediction]
            res.state = some res2 ∧
        res2.provider_calls = [samplePrediction.label]) :=
  C4_failure_not_cached (some "id") (some "key")
    (fun _ => ApiOutcome.requestError) true samplePrediction [] _ 1 rfl rfl

/-- Claim C5: a provider payload whose calorie quantity truncates to zero is
indistinguishable at the caller's interface from a provider failure: the fetch
returns the very same value as on a failed request (`None`, one network
request), the response's nutrition fields are `null`, and no cache entry is
created. -/
theorem C5_zero_calories_like_failure (APP_ID APP_KEY : Option String)
    (food_name : String) (nutrients : Nutrients)
    (hcreds : credentials_are_placeholder APP_ID APP_KEY = false)
    (hzero : pyInt (get_nutrient nutrients "ENERC_KCAL") = 0) :
    get_nutrition_data_from_api APP_ID APP_KEY
        (fun _ => ApiOutcome.parsed nutrients) food_name =
      get_nutrition_data_from_api APP_ID APP_KEY
        (fun _ => ApiOutcome.requestError) food_name ∧
    (get_nutrition_data_from_api APP_ID APP_KEY
        (fun _ => ApiOutcome.parsed nutrients) food_name).1 = none ∧
    (∀ (write_ok : Bool) (p0 : Prediction) (rest : List Prediction)
        (st : SrvState), st.nutrition_db.lookup p0.label = none →
      ∃ res, analyze APP_ID APP_KEY (fun _ => ApiOutcome.parsed nutrients)
          write_ok (p0 :: rest) st = some res ∧
        res.response.nutritionPer100g = none ∧
        res.response.allergens = [] ∧
        res.state = st) := by
  have hfe : ∀ name, get_nutrition_data_from_api APP_ID APP_KEY
      (fun _ => ApiOutcome.parsed nutrients) name = (none, 1) := by
    intro name
    unfold get_nutrition_data_from_api
    rw [hcreds]
    simp only [Bool.false_eq_true, if_false]
    by_cases hne : nutrients.isEmpty
    · simp [hne]
    · simp [hne, hzero]
  have hre : get_nutrition_data_from_api APP_ID APP_KEY
      (fun _ => ApiOutcome.requestError) food_name = (none, 1) := by
    unfold get_nutrition_data_from_api
    rw [hcreds]
    simp
  refine ⟨by rw [hfe food_name, hre], by rw [hfe food_name], ?_⟩
  intro write_ok p0 rest st hmiss
  exact ⟨{ response :=
             { predictions := p0 :: rest
               nutritionPer100g := none
               allergens := [] }
           state := st
           provider_calls := [p0.label]
           network_requests := 1 },
         by simp [analyze, hmiss, hfe p0.label], rfl, rfl, rfl⟩

/-- Witness for C5: a 0.94 kcal payload (rounds to 0.9, truncates to 0). -/
theorem C5_zero_calories_like_failure_witness :
    get_nutrition_data_from_api (some "id") (some "key")
        (fun _ => ApiOutcome.parsed lowCalNutrients) "Pizza" =
      get_nutrition_data_from_api (some "id") (some "key")
        (fun _ => ApiOutcome.requestError) "Pizza" ∧
    (get_nutrition_data_from_api (some "id") (some "key")
        (fun _ => ApiOutcome.parsed lowCalNutrients) "Pizza").1 = none ∧
    (∀ (write_ok : Bool) (p0 : Prediction) (rest : List Prediction)
        (st : SrvState), st.nutrition_db.lookup p0.label = none →
      ∃ res, analyze (some "id") (some "key")
          (fun _ => ApiOutcome.parsed lowCalNutrients) write_ok (p0 :: rest)
          st = some res ∧
        res.response.nutritionPer100g = none ∧
        res.response.allergens = [] ∧
        res.state = st) :=
  C5_zero_calories_like_failure (some "id") (some "key") "Pizza"
    lowCalNutrients rfl (by with_unfolding_all rfl)

lemma analyze_state_cases (APP_ID APP_KEY : Option String)
    (net : String → ApiOutcome) (write_ok : Bool) (preds : List Prediction)
    (st : SrvState) (res : AnalyzeResult)
    (h : analyze APP_ID APP_KEY net write_ok preds st = some res) :
    res.state = st ∨
      ∃ p0 rest record n, preds = p0 :: rest ∧
        get_nutrition_data_from_api APP_ID APP_KEY net p0.label =
          (some record, n) ∧
        res.state = write_cache_and_persist st p0.label record write_ok := by
  cases preds with
  | nil => simp [analyze] at h
  | cons p0 rest =>
    rcases hl : st.nutrition_db.lookup p0.label with _ | record
    · rcases hf : get_nutrition_data_from_api APP_ID APP_KEY net p0.label
        with ⟨d, n⟩
      cases d with
      | none =>
        left
        simp only [analyze, hl, hf, Option.some.injEq] at h
        rw [← h]
      | some record =>
        right
        refine ⟨p0, rest, record, n, rfl, hf, ?_⟩
        simp only [analyze, hl, hf, Option.some.injEq] at h
        rw [← h]
    · left
      simp only [analyze, hl, Option.some.injEq] at h
      rw [← h]

lemma mem_step (APP_ID APP_KEY : Option String) (st : SrvState) (r : Request)
    (entry : String × FormattedData)
    (h : entry ∈ (step APP_ID APP_KEY st r).nutrition_db) :
    entry ∈ st.nutrition_db ∨
      (get_nutrition_data_from_api APP_ID APP_KEY r.net entry.1).1 =
        some entry.2 := by
  rcases ha : analyze APP_ID APP_KEY r.net r.write_ok r.predictions st
    with _ | res
  · have hs : step APP_ID APP_KEY st r = st := by
      unfold step
      rw [ha]
    rw [hs] at h
    exact Or.inl h
  · have hs : step APP_ID APP_KEY st r = res.state := by
      unfold step
      rw [ha]
    rw [hs] at h
    rcases analyze_state_cases _ _ _ _ _ _ _ ha with hst |
      ⟨p0, rest, record, n, _, hf, hst⟩
    · rw [hst] at h
      exact Or.inl h
    · rw [hst] at h
      rcases mem_dictInsert st.nutrition_db p0.label record entry h
        with he | he
      · right
        rw [he]
        simp [hf]
      · exact Or.inl he

/-- Claim C6: invariant preserved by every sequence of requests — each entry
of the in-memory cache either was already there at startup or carries exactly
the (complete, non-`None`) record a successful provider fetch of one of the
requests returned for its key. (That no entry is a failed or partial record
is inherent: insertion happens only in the `some record` branch of `analyze`,
and every `FormattedData` carries all 24 nutrient fields.) -/
theorem C6_cache_provenance_invariant (APP_ID APP_KEY : Option String)
    (st : SrvState) (reqs : List Request) (entry : String × FormattedData)
    (hmem : entry ∈ (runRequests APP_ID APP_KEY st reqs).nutrition_db) :
    entry ∈ st.nutrition_db ∨
      ∃ r ∈ reqs,
        (get_nutrition_data_from_api APP_ID APP_KEY r.net entry.1).1 =
          some entry.2 := by
  induction reqs generalizing st with
  | nil => exact Or.inl hmem
  | cons r rs ih =>
    have hmem' :
        entry ∈ (runRequests APP_ID APP_KEY (step APP_ID APP_KEY st r)
          rs).nutrition_db := hmem
    rcases ih _ hmem' with h | ⟨r', hr', hfet⟩
    · rcases mem_step _ _ _ _ _ h with h' | h'
      · exact Or.inl h'
      · exact Or.inr ⟨r, List.mem_cons_self _ _, h'⟩
    · exact Or.inr ⟨r', List.mem_cons_of_mem _ hr', hfet⟩

/-- Witness for C6: one preloaded entry survives an empty request list. -/
theorem C6_cache_provenance_invariant_witness :
    ("Pizza", sampleRecord) ∈
        ({ nutrition_db := [("Pizza", sampleRecord)], db_file := [] } :
          SrvState).nutrition_db ∨
      ∃ r ∈ ([] : List Request),
        (get_nutrition_data_from_api (some "id") (some "key") r.net
            ("Pizza", sampleRecord).1).1 = some ("Pizza", sampleRecord).2 :=
  C6_cache_provenance_invariant (some "id") (some "key")
    { nutrition_db := [("Pizza", sampleRecord)], db_file := [] } []
    ("Pizza", sampleRecord) (List.mem_cons_self _ _)

/-- Claim C7 counterexample: with both credentials unset (`os.getenv`
returning `None`), the guard `APP_ID == "EDAMAM_APP_ID" or APP_KEY ==
"EDAMAM_APP_KEY"` does not fire, so the provider call is NOT skipped — one
network request is issued, refuting the claim that an unset credential makes
every provider call skipped entirely. -/
theorem C7_counterexample_unset_credentials :
    credentials_are_placeholder none none = false ∧
    (get_nutrition_data_from_api none none (fun _ => ApiOutcome.requestError)
        "Pizza").2 = 1 ∧
    ¬ (get_nutrition_data_from_api none none
        (fun _ => ApiOutcome.requestError) "Pizza").2 = 0 :=
  ⟨rfl, rfl, by decide⟩

/-- Claim C7 (amended): if either provider credential equals its placeholder
string, every provider call is skipped entirely (no network request) and
treated as a failure; a credential that is unset does not trigger the skip
and the request is attempted. -/
theorem C7_amended_placeholder_skips (APP_ID APP_KEY : Option String)
    (net : String → ApiOutcome) (food_name : String)
    (h : APP_ID = some "EDAMAM_APP_ID" ∨ APP_KEY = some "EDAMAM_APP_KEY") :
    get_nutrition_data_from_api APP_ID APP_KEY net food_name = (none, 0) := by
  have hc : credentials_are_placeholder APP_ID APP_KEY = true := by
    unfold credentials_are_placeholder
    rcases h with h | h <;> simp [h]
  unfold get_nutrition_data_from_api
  rw [hc]
  simp

/-- Witness for the amended C7: left credential is the placeholder string. -/
theorem C7_amended_placeholder_skips_witness :
    get_nutrition_data_from_api (some "EDAMAM_APP_ID") none
        (fun _ => ApiOutcome.requestError) "Pizza" = (none, 0) :=
  C7_amended_placeholder_skips (some "EDAMAM_APP_ID") none
    (fun _ => ApiOutcome.requestError) "Pizza" (Or.inl rfl)

/-- Claim C8: at process start a missing store file (`FileNotFoundError`) and
a corrupt one (`json.JSONDecodeError`) both initialize the cache to the empty
mapping; `load_nutrition_db` is total on every read outcome, so neither case
surfaces as an error and the process continues. -/
theorem C8_startup_load_swallows_corruption :
    load_nutrition_db StoreRead.fileNotFound = [] ∧
    load_nutrition_db StoreRead.jsonDecodeError = [] :=
  ⟨rfl, rfl⟩

/-- Claim C9: two concurrent requests whose top labels are distinct
cache-missing labels and whose fetches both succeed both end up in the
in-memory dict and in the durable snapshot after the last write. The
`db_lock` serializes the mutate-then-persist critical section
(`write_cache_and_persist`), so the only shared-state histories are the two
orders of the two writes; in either order both records are present in the
final dict and the final snapshot equals that whole dict (no lost update). -/
theorem C9_serialized_writes_no_lost_update (APP_ID APP_KEY : Option String)
    (net1 net2 : String → ApiOutcome) (st : SrvState) (L1 L2 : String)
    (r1 r2 : FormattedData) (hne : L1 ≠ L2)
    (_hf1 : (get_nutrition_data_from_api APP_ID APP_KEY net1 L1).1 = some r1)
    (_hf2 : (get_nutrition_data_from_api APP_ID APP_KEY net2 L2).1 = some r2) :
    ((write_cache_and_persist (write_cache_and_persist st L1 r1 true) L2 r2
        true).nutrition_db.lookup L1 = some r1 ∧
      (write_cache_and_persist (write_cache_and_persist st L1 r1 true) L2 r2
        true).nutrition_db.lookup L2 = some r2 ∧
      (write_cache_and_persist (write_cache_and_persist st L1 r1 true) L2 r2
        true).db_file =
        (write_cache_and_persist (write_cache_and_persist st L1 r1 true) L2 r2
          true).nutrition_db) ∧
    ((write_cache_and_persist (write_cache_and_persist st L2 r2 true) L1 r1
        true).nutrition_db.lookup L1 = some r1 ∧
      (write_cache_and_persist (write_cache_and_persist st L2 r2 true) L1 r1
        true).nutrition_db.lookup L2 = some r2 ∧
      (write_cache_and_persist (write_cache_and_persist st L2 r2 true) L1 r1
        true).db_file =
        (write_cache_and_persist (write_cache_and_persist st L2 r2 true) L1 r1
          true).nutrition_db) := by
  refine ⟨⟨?_, ?_, rfl⟩, ⟨?_, ?_, rfl⟩⟩
  · show (dictInsert (dictInsert st.nutrition_db L1 r1) L2 r2).lookup L1 =
      some r1
    rw [lookup_dictInsert_ne _ _ _ _ hne]
    exact lookup_dictInsert_self _ _ _
  · exact lookup_dictInsert_self _ _ _
  · exact lookup_dictInsert_self _ _ _
  · show (dictInsert (dictInsert st.nutrition_db L2 r2) L1 r1).lookup L2 =
      some r2
    rw [lookup_dictInsert_ne _ _ _ _ (Ne.symm hne)]
    exact lookup_dictInsert_self _ _ _

/-- Witness for C9: "Pizza" and "Sushi" both fetched successfully into an
empty cache. -/
theorem C9_serialized_writes_no_lost_update_witness :
    ((write_cache_and_persist (write_cache_and_persist
        { nutrition_db := [], db_file := [] } "Pizza" sampleRecord true)
        "Sushi" sampleRecord true).nutrition_db.lookup "Pizza" =
        some sampleRecord ∧
      (write_cache_and_persist (write_cache_and_persist
        { nutrition_db := [], db_file := [] } "Pizza" sampleRecord true)
        "Sushi" sampleRecord true).nutrition_db.lookup "Sushi" =
        some sampleRecord ∧
      (write_cache_and_persist (write_cache_and_persist
        { nutrition_db := [], db_file := [] } "Pizza" sampleRecord true)
        "Sushi" sampleRecord true).db_file =
        (write_cache_and_persist (write_cache_and_persist
          { nutrition_db := [], db_file := [] } "Pizza" sampleRecord true)
          "Sushi" sampleRecord true).nutrition_db) ∧
    ((write_cache_and_persist (write_cache_and_persist
        { nutrition_db := [], db_file := [] } "Sushi" sampleRecord true)
        "Pizza" sampleRecord true).nutrition_db.lookup "Pizza" =
        some sampleRecord ∧
      (write_cache_and_persist (write_cache_and_persist
        { nutrition_db := [], db_file := [] } "Sushi" sampleRecord true)
        "Pizza" sampleRecord true).nutrition_db.lookup "Sushi" =
        some sampleRecord ∧
      (write_cache_and_persist (write_cache_and_persist
        { nutrition_db := [], db_file := [] } "Sushi" sampleRecord true)
        "Pizza" sampleRecord true).db_file =
        (write_cache_and_persist (write_cache_and_persist
          { nutrition_db := [], db_file := [] } "Sushi" sampleRecord true)
          "Pizza" sampleRecord true).nutrition_db) :=
  C9_serialized_writes_no_lost_update (some "id") (some "key")
    (fun _ => ApiOutcome.parsed sampleNutrients)
    (fun _ => ApiOutcome.parsed sampleNutrients)
    { nutrition_db := [], db_file := [] } "Pizza" "Sushi" sampleRecord
    sampleRecord (by decide) (by with_unfolding_all rfl)
    (by with_unfolding_all rfl)

/-- Claim C10: calories are computed as `int(round(quantity, 1))` before the
zero test, so a payload whose calorie quantity truncates to 0 — in particular
any nonnegative quantity whose one-decimal rounding is below 1, such as
0.94 kcal — makes the fetch return not-found; a nutrient key missing from the
payload is read as 0; and every successful record is exactly the full
24-field `nutritionPer100g` dict built from `get_nutrient` (missing keys
recorded as 0, never absent) with an empty allergen list. -/
theorem C10_rounding_and_defaults (APP_ID APP_KEY : Option String)
    (food_name : String) (nutrients : Nutrients)
    (hcreds : credentials_are_placeholder APP_ID APP_KEY = false)
    (hne : nutrients.isEmpty = false) :
    (pyInt (get_nutrient nutrients "ENERC_KCAL") = 0 →
      get_nutrition_data_from_api APP_ID APP_KEY
        (fun _ => ApiOutcome.parsed nutrients) food_name = (none, 1)) ∧
    (∀ q : ℚ, ((nutrients.lookup "ENERC_KCAL").getD none).getD 0 = q →
      0 ≤ q → pyRound1 q < 1 →
      pyInt (get_nutrient nutrients "ENERC_KCAL") = 0) ∧
    (∀ key, nutrients.lookup key = none → get_nutrient nutrients key = 0) ∧
    (∀ record n,
      get_nutrition_data_from_api APP_ID APP_KEY
          (fun _ => ApiOutcome.parsed nutrients) food_name =
        (some record, n) →
      record =
        { nutritionPer100g :=
            { calories := pyInt (get_nutrient nutrients "ENERC_KCAL")
              protein := get_nutrient nutrients "PROCNT"
              fat := get_nutrient nutrients "FAT"
              carbs := get_nutrient nutrients "CHOCDF"
              fiber := get_nutrient nutrients "FIBTG"
              sugar := get_nutrient nutrients "SUGAR"
              sodium := get_nutrient nutrients "NA"
              cholesterol := get_nutrient nutrients "CHOLE"
              calcium := get_nutrient nutrients "CA"
              iron := get_nutrient nutrients "FE"
              magnesium := get_nutrient nutrients "MG"
              potassium := get_nutrient nutrients "K"
              zinc := get_nutrient nutrients "ZN"
              phosphorus := get_nutrient nutrients "P"
              vitaminA := get_nutrient nutrients "VITA_RAE"
              vitaminC := get_nutrient nutrients "VITC"
              thiaminB1 := get_nutrient nutrients "THIA"
              riboflavinB2 := get_nutrient nutrients "RIBF"
              niacinB3 := get_nutrient nutrients "NIA"
              vitaminB6 := get_nutrient nutrients "VITB6A"
              vitaminB12 := get_nutrient nutrients "VITB12"
              vitaminD := get_nutrient nutrients "VITD"
              vitaminE := get_nutrient nutrients "TOCPHA"
              vitaminK := get_nutrient nutrients "VITK1" }
          allergens := [] }) := by
  refine ⟨?_, ?_, ?_, ?_⟩
  · intro hz
    unfold get_nutrition_data_from_api
    rw [hcreds]
    simp [hne, hz]
  · intro q hq h0 h1
    have hg : get_nutrient nutrients "ENERC_KCAL" = pyRound1 q := by
      unfold get_nutrient
      rw [hq]
    rw [hg]
    exact pyInt_eq_zero _ (pyRound1_nonneg q h0) h1
  · intro key hk
    unfold get_nutrient
    rw [hk]
    show pyRound1 0 = 0
    unfold pyRound1 roundHalfEven
    norm_num [Rat.floor_def']
  · intro record n h
    unfold get_nutrition_data_from_api at h
    rw [hcreds] at h
    by_cases hz : pyInt (get_nutrient nutrients "ENERC_KCAL") = 0
    · simp [hne, hz] at h
    · simp only [Bool.false_eq_true, if_false, hne, hz, Bool.not_eq_true,
        if_neg, Prod.mk.injEq, Option.some.injEq] at h
      exact h.1.symm

/-- Witness for C10: the 0.94 kcal payload. -/
theorem C10_rounding_and_defaults_witness :
    (pyInt (get_nutrient lowCalNutrients "ENERC_KCAL") = 0 →
      get_nutrition_data_from_api (some "id") (some "key")
        (fun _ => ApiOutcome.parsed lowCalNutrients) "Pizza" = (none, 1)) ∧
    (∀ q : ℚ, ((lowCalNutrients.lookup "ENERC_KCAL").getD none).getD 0 = q →
      0 ≤ q → pyRound1 q < 1 →
      pyInt (get_nutrient lowCalNutrients "ENERC_KCAL") = 0) ∧
    (∀ key, lowCalNutrients.lookup key = none →
      get_nutrient lowCalNutrients key = 0) ∧
    (∀ record n,
      get_nutrition_data_from_api (some "id") (some "key")
          (fun _ => ApiOutcome.parsed lowCalNutrients) "Pizza" =
        (some record, n) →
      record =
        { nutritionPer100g :=
            { calories := pyInt (get_nutrient lowCalNutrients "ENERC_KCAL")
              protein := get_nutrient lowCalNutrients "PROCNT"
              fat := get_nutrient lowCalNutrients "FAT"
              carbs := get_nutrient lowCalNutrients "CHOCDF"
              fiber := get_nutrient lowCalNutrients "FIBTG"
              sugar := get_nutrient lowCalNutrients "SUGAR"
              sodium := get_nutrient lowCalNutrients "NA"
              cholesterol := get_nutrient lowCalNutrients "CHOLE"
              calcium := get_nutrient lowCalNutrients "CA"
              iron := get_nutrient lowCalNutrients "FE"
              magnesium := get_nutrient lowCalNutrients "MG"
              potassium := get_nutrient lowCalNutrients "K"
              zinc := get_nutrient lowCalNutrients "ZN"
              phosphorus := get_nutrient lowCalNutrients "P"
              vitaminA := get_nutrient lowCalNutrients "VITA_RAE"
              vitaminC := get_nutrient lowCalNutrients "VITC"
              thiaminB1 := get_nutrient lowCalNutrients "THIA"
              riboflavinB2 := get_nutrient lowCalNutrients "RIBF"
              niacinB3 := get_nutrient lowCalNutrients "NIA"
              vitaminB6 := get_nutrient lowCalNutrients "VITB6A"
              vitaminB12 := get_nutrient lowCalNutrients "VITB12"
              vitaminD := get_nutrient lowCalNutrients "VITD"
              vitaminE := get_nutrient lowCalNutrients "TOCPHA"
              vitaminK := get_nutrient lowCalNutrients "VITK1" }
          allergens := [] }) :=
  C10_rounding_and_defaults (some "id") (some "key") "Pizza" lowCalNutrients
    rfl rfl

end FoodNutrition
